import Mathlib

/-!
Verification of the repository-entity operations of gitbatch
(src/pkg/git/repository.go) against its specification.

The Go code is embedded shallowly: the external collaborators (the filesystem
and the go-git adapter) are replaced by an environment record that fixes the
outcome of each adapter call made during one operation, and the entity record
is threaded explicitly.  A nil-pointer dereference panic is modelled by the
`Except.error` constructor of the operation's result.  Each composite
operation also returns the list of adapter calls it performed, in order, so
that statements such as "a Refresh is attempted before the error is returned"
or "no merge is attempted" are expressible.
-/

namespace Gitbatch

/-- Errors returned by the adapter and the operations are plain messages. -/
abbrev GitErr := String

/-- A local branch.  Modelled from the spec: a branch is identified by its
name; the Go `Branch` type lives in a file that is not under src. -/
structure Branch where
  Name : String
deriving DecidableEq, Repr

/-- A remote-tracking branch.  Modelled from the spec: identified by its full
name such as `origin/master`; the Go type is not under src. -/
structure RemoteBranch where
  Name : String
deriving DecidableEq, Repr

/-- A remote.  Modelled from the spec: a name, the ordered remote-tracking
branches, and the currently selected remote branch (`Remote.Branch`), which
may be unset; the Go `Remote` type is not under src. -/
structure Remote where
  Name : String
  Branches : List RemoteBranch
  Branch : Option RemoteBranch
deriving DecidableEq, Repr

/-- A commit.  Modelled from the spec: an immutable record; only identity
matters here, so it is reduced to its hash.  The Go type is not under src. -/
structure Commit where
  Hash : String
deriving DecidableEq, Repr

/-- RepoState from src/pkg/git/repository.go lines 31-45. -/
inductive RepoState
  | Available
  | Queued
  | Working
  | Success
  | Fail
deriving DecidableEq, Repr

/-- RepoEntity from src/pkg/git/repository.go lines 16-29.  The go-git
`Repository` handle is opaque to this core and is modelled by a numeric
identifier; pointers become `Option`. -/
structure RepoEntity where
  RepoID : String
  Name : String
  AbsPath : String
  ModTime : Nat
  Repository : Nat
  Branch : Option Gitbatch.Branch
  Branches : List Gitbatch.Branch
  Remote : Option Gitbatch.Remote
  Remotes : List Gitbatch.Remote
  Commit : Option Gitbatch.Commit
  Commits : List Gitbatch.Commit
  State : RepoState
deriving DecidableEq, Repr

/-- Outcomes of the adapter calls available during one operation
(Fetch, Merge, Pull or Refresh).  At most one Refresh happens per
operation, so one set of sub-step outcomes suffices. -/
structure Env where
  fetchErr : Option GitErr
  mergeErr : Option GitErr
  checkoutErr : Option GitErr
  statRes : Except GitErr Nat
  plainOpenRes : Except GitErr Nat
  branchesRes : Except GitErr (List Branch)
  commitsRes : Except GitErr (List Commit)
  remotesRes : Except GitErr (List Remote)

/-- The sub-steps of `Refresh`, recorded in the order they are attempted. -/
inductive RStep
  | stat
  | plainOpen
  | loadBranches
  | loadCommits
  | loadRemotes
deriving DecidableEq, Repr

/-- The adapter calls a composite operation can perform, recorded in the
order they happen. -/
inductive Call
  | fetchWithGit (remote : String)
  | checkout
  | mergeWithGit (branch : String)
  | refresh
deriving DecidableEq, Repr

/-- Modelled from the spec: `loadLocalBranches` re-enumerates the local
branches and replaces `Branches` wholesale on success, leaving the entity
unchanged on failure.  Its Go source is not under src. -/
def loadLocalBranches (res : Except GitErr (List Branch)) (e : RepoEntity) :
    RepoEntity × Option GitErr :=
  match res with
  | .error err => (e, some err)
  | .ok bs => ({ e with Branches := bs }, none)

/-- Modelled from the spec: `loadCommits` re-enumerates the commits reachable
from the active branch and replaces `Commits` wholesale on success, leaving
the entity unchanged on failure.  Its Go source is not under src. -/
def loadCommits (res : Except GitErr (List Commit)) (e : RepoEntity) :
    RepoEntity × Option GitErr :=
  match res with
  | .error err => (e, some err)
  | .ok cs => ({ e with Commits := cs }, none)

/-- Modelled from the spec: `loadRemotes` re-enumerates the configured
remotes and replaces `Remotes` wholesale on success, leaving the entity
unchanged on failure.  Its Go source is not under src. -/
def loadRemotes (res : Except GitErr (List Remote)) (e : RepoEntity) :
    RepoEntity × Option GitErr :=
  match res with
  | .error err => (e, some err)
  | .ok rs => ({ e with Remotes := rs }, none)

/-- Shallow embedding of `RepoEntity.Refresh`, src/pkg/git/repository.go
lines 160-184.  The code opens the directory ignoring the error, stats it,
re-opens the repository handle via git.PlainOpen, assigns the new handle and
modification time, then reloads branches, commits and remotes, returning the
first sub-step error.  The third component is the trace of attempted
sub-steps. -/
def RepoEntity.Refresh (env : Env) (e : RepoEntity) :
    RepoEntity × Option GitErr × List RStep :=
  match env.statRes with
  | .error err => (e, some err, [RStep.stat])
  | .ok mt =>
    match env.plainOpenRes with
    | .error err => (e, some err, [RStep.stat, RStep.plainOpen])
    | .ok r =>
      let e1 := { e with Repository := r, ModTime := mt }
      match loadLocalBranches env.branchesRes e1 with
      | (e2, some err) =>
        (e2, some err, [RStep.stat, RStep.plainOpen, RStep.loadBranches])
      | (e2, none) =>
        match loadCommits env.commitsRes e2 with
        | (e3, some err) =>
          (e3, some err,
            [RStep.stat, RStep.plainOpen, RStep.loadBranches, RStep.loadCommits])
        | (e3, none) =>
          match loadRemotes env.remotesRes e3 with
          | (e4, some err) =>
            (e4, some err,
              [RStep.stat, RStep.plainOpen, RStep.loadBranches,
               RStep.loadCommits, RStep.loadRemotes])
          | (e4, none) =>
            (e4, none,
              [RStep.stat, RStep.plainOpen, RStep.loadBranches,
               RStep.loadCommits, RStep.loadRemotes])

/-- Modelled from the spec: the adapter-level fetch `FetchWithGit` runs git
fetch for the named remote on disk; it does not mutate the in-memory entity
and returns the adapter error, if any.  Its Go source is not under src. -/
def FetchWithGit (env : Env) (e : RepoEntity) : RepoEntity × Option GitErr :=
  (e, env.fetchErr)

/-- Shallow embedding of `RepoEntity.Fetch`, src/pkg/git/repository.go
lines 130-141: read `entity.Remote.Name` (nil dereference when `Remote` is
unset), call FetchWithGit and return its error unchanged on failure; on
success Refresh (result discarded) and Checkout the active branch (result
discarded). -/
def RepoEntity.Fetch (env : Env) (e : RepoEntity) :
    Except String (RepoEntity × Option GitErr × List Call) :=
  match e.Remote with
  | none => .error "nil pointer dereference: entity.Remote"
  | some r =>
    match env.fetchErr with
    | some err => .ok (e, some err, [Call.fetchWithGit r.Name])
    | none =>
      let e1 := (RepoEntity.Refresh env e).1
      .ok (e1, none, [Call.fetchWithGit r.Name, Call.refresh, Call.checkout])

/-- Shallow embedding of `RepoEntity.Merge`, src/pkg/git/repository.go
lines 145-156: Checkout the active branch (result discarded), merge
`entity.Remote.Branch.Name` (nil dereference when `Remote` or
`Remote.Branch` is unset); on failure Refresh (result discarded) and return
the merge error; on success Refresh (result discarded) and return nil. -/
def RepoEntity.Merge (env : Env) (e : RepoEntity) :
    Except String (RepoEntity × Option GitErr × List Call) :=
  match e.Remote with
  | none => .error "nil pointer dereference: entity.Remote"
  | some r =>
    match r.Branch with
    | none => .error "nil pointer dereference: entity.Remote.Branch"
    | some rb =>
      match env.mergeErr with
      | some err =>
        let e1 := (RepoEntity.Refresh env e).1
        .ok (e1, some err, [Call.checkout, Call.mergeWithGit rb.Name, Call.refresh])
      | none =>
        let e1 := (RepoEntity.Refresh env e).1
        .ok (e1, none, [Call.checkout, Call.mergeWithGit rb.Name, Call.refresh])

/-- Shallow embedding of `RepoEntity.Pull`, src/pkg/git/repository.go
lines 105-126: read `entity.Remote.Name`, FetchWithGit (return its error
immediately on failure), Checkout the active branch (result discarded),
merge `entity.Remote.Branch.Name`; on merge failure Refresh (result
discarded) and return the merge error; on success Refresh and Checkout again
(both results discarded) and return nil. -/
def RepoEntity.Pull (env : Env) (e : RepoEntity) :
    Except String (RepoEntity × Option GitErr × List Call) :=
  match e.Remote with
  | none => .error "nil pointer dereference: entity.Remote"
  | some r =>
    match env.fetchErr with
    | some err => .ok (e, some err, [Call.fetchWithGit r.Name])
    | none =>
      match r.Branch with
      | none => .error "nil pointer dereference: entity.Remote.Branch"
      | some rb =>
        match env.mergeErr with
        | some err =>
          let e1 := (RepoEntity.Refresh env e).1
          .ok (e1, some err,
            [Call.fetchWithGit r.Name, Call.checkout,
             Call.mergeWithGit rb.Name, Call.refresh])
        | none =>
          let e1 := (RepoEntity.Refresh env e).1
          .ok (e1, none,
            [Call.fetchWithGit r.Name, Call.checkout,
             Call.mergeWithGit rb.Name, Call.refresh, Call.checkout])

/-- Modelled from the spec: `switchRemoteBranch` selects, on a remote, the
remote-tracking branch whose name is exactly the given upstream name; when no
such branch exists it returns an error and leaves the selection unchanged.
Its Go source is not under src. -/
def Remote.switchRemoteBranch (r : Remote) (upstream : String) :
    Remote × Option GitErr :=
  match r.Branches.find? (fun rb => rb.Name == upstream) with
  | some rb => ({ r with Branch := some rb }, none)
  | none => (r, some ("Remote branch not found: " ++ upstream))

/-- Outcomes of the calls made by `InitializeRepository`.  `activeBranch`
models `getActiveBranch` (source not under src): per the spec it selects
whichever local branch corresponds to the VCS-reported HEAD, possibly
none. -/
structure InitEnv where
  openErr : Option GitErr
  statRes : Except GitErr (String × Nat)
  plainOpenRes : Except GitErr Nat
  branchesRes : Except GitErr (List Branch)
  commitsRes : Except GitErr (List Commit)
  remotesRes : Except GitErr (List Remote)
  activeBranch : Option Branch
  repoID : String

/-- Shallow embedding of `InitializeRepository`, src/pkg/git/repository.go
lines 48-100.  The first component of a successful result is the returned
entity pointer (`none` models the Go `nil`), the second the returned error.
The loader errors on lines 75-76 and 85 are discarded by the Go code and are
discarded here.  The `switchRemoteBranch` error on line 92 is swallowed: the
function ends with `return entity, nil`.  Reading `entity.Branch.Name` on
line 92 dereferences the active branch, hence the `Except.error` panic case
when it is unset and at least one remote exists. -/
def InitializeRepository (env : InitEnv) (directory : String) :
    Except String (Option RepoEntity × Option GitErr) :=
  match env.openErr with
  | some err => .ok (none, some err)
  | none =>
    match env.statRes with
    | .error err => .ok (none, some err)
    | .ok nmmt =>
      match env.plainOpenRes with
      | .error err => .ok (none, some err)
      | .ok r =>
        let e0 : RepoEntity :=
          { RepoID := env.repoID, Name := nmmt.1, AbsPath := directory,
            ModTime := nmmt.2, Repository := r, Branch := none, Branches := [],
            Remote := none, Remotes := [], Commit := none, Commits := [],
            State := RepoState.Available }
        let e1 := (loadLocalBranches env.branchesRes e0).1
        let e2 := (loadCommits env.commitsRes e1).1
        match e2.Commits with
        | [] =>
          .ok (some e2, some ("There is no commit for this repository: " ++ directory))
        | c :: _ =>
          let e3 := { e2 with Commit := some c }
          let e4 := (loadRemotes env.remotesRes e3).1
          let e5 := { e4 with Branch := env.activeBranch }
          match e5.Remotes with
          | [] =>
            .ok (some e5, some ("There is no remote for this repository: " ++ directory))
          | r0 :: rest =>
            let e6 := { e5 with Remote := some r0 }
            match e6.Branch with
            | none => .error "nil pointer dereference: entity.Branch"
            | some b =>
              let sw := Remote.switchRemoteBranch r0 (r0.Name ++ "/" ++ b.Name)
              let e7 := { e6 with Remote := some sw.1, Remotes := sw.1 :: rest }
              .ok (some e7, none)

/-- Definition following the words of claim C7 and spec section 4.3, for
comparison with `RepoEntity.Refresh`: it performs the re-open of the
repository handle first and the stat second, assigning each result as soon
as its sub-step succeeds and failing fast in the claimed order. -/
def RefreshClaimOrder (env : Env) (e : RepoEntity) :
    RepoEntity × Option GitErr × List RStep :=
  match env.plainOpenRes with
  | .error err => (e, some err, [RStep.plainOpen])
  | .ok r =>
    let e1 := { e with Repository := r }
    match env.statRes with
    | .error err => (e1, some err, [RStep.plainOpen, RStep.stat])
    | .ok mt =>
      let e2 := { e1 with ModTime := mt }
      match loadLocalBranches env.branchesRes e2 with
      | (e3, some err) =>
        (e3, some err, [RStep.plainOpen, RStep.stat, RStep.loadBranches])
      | (e3, none) =>
        match loadCommits env.commitsRes e3 with
        | (e4, some err) =>
          (e4, some err,
            [RStep.plainOpen, RStep.stat, RStep.loadBranches, RStep.loadCommits])
        | (e4, none) =>
          match loadRemotes env.remotesRes e4 with
          | (e5, some err) =>
            (e5, some err,
              [RStep.plainOpen, RStep.stat, RStep.loadBranches,
               RStep.loadCommits, RStep.loadRemotes])
          | (e5, none) =>
            (e5, none,
              [RStep.plainOpen, RStep.stat, RStep.loadBranches,
               RStep.loadCommits, RStep.loadRemotes])

/-! Concrete fixtures used by counterexamples and witnesses. -/

/-- A local branch named master. -/
def masterBranch : Branch := { Name := "master" }

/-- The remote-tracking branch origin/master. -/
def originMaster : RemoteBranch := { Name := "origin/master" }

/-- A remote with a selected tracking branch. -/
def origin : Remote :=
  { Name := "origin", Branches := [originMaster], Branch := some originMaster }

/-- A remote with no tracking branches and no selection. -/
def originNoSel : Remote := { Name := "origin", Branches := [], Branch := none }

/-- A sample commit. -/
def sampleCommit : Commit := { Hash := "c1" }

/-- A fully initialized sample entity. -/
def baseEntity : RepoEntity :=
  { RepoID := "id000001", Name := "repo", AbsPath := "/tmp/repo", ModTime := 5,
    Repository := 1, Branch := some masterBranch, Branches := [masterBranch],
    Remote := some origin, Remotes := [origin], Commit := some sampleCommit,
    Commits := [sampleCommit], State := RepoState.Available }

/-- A sample entity whose remote has no selected tracking branch. -/
def entityNoRB : RepoEntity :=
  { baseEntity with Remote := some originNoSel, Remotes := [originNoSel] }

/-- An environment in which every adapter call succeeds. -/
def okEnv : Env :=
  { fetchErr := none, mergeErr := none, checkoutErr := none, statRes := .ok 6,
    plainOpenRes := .ok 2, branchesRes := .ok [masterBranch],
    commitsRes := .ok [sampleCommit], remotesRes := .ok [origin] }

/-- Like `okEnv` but the adapter fetch fails. -/
def envFetchFail : Env := { okEnv with fetchErr := some "fetch failed" }

/-- Like `okEnv` but the adapter merge fails. -/
def envMergeFail : Env := { okEnv with mergeErr := some "merge failed" }

/-- Like `envMergeFail` but the Refresh also fails while loading branches. -/
def envMergeRefreshFail : Env :=
  { envMergeFail with branchesRes := .error "refresh failed" }

/-- An environment in which both the stat and the handle re-open of Refresh
fail, with distinct errors. -/
def envStatOpenFail : Env :=
  { okEnv with statRes := .error "stat failed", plainOpenRes := .error "open failed" }

/-- Like `okEnv` but checkout fails and the Refresh fails while loading
branches; the adapter fetch and merge themselves succeed. -/
def envDiscardFail : Env :=
  { okEnv with
    checkoutErr := some "checkout failed"
    branchesRes := .error "refresh failed" }

/-- The entity produced by a fully successful Refresh of `baseEntity` under
`okEnv`. -/
def refreshedBase : RepoEntity := { baseEntity with ModTime := 6, Repository := 2 }

/-- An initialization environment in which everything succeeds. -/
def initBase : InitEnv :=
  { openErr := none, statRes := .ok ("repo", 5), plainOpenRes := .ok 1,
    branchesRes := .ok [masterBranch], commitsRes := .ok [sampleCommit],
    remotesRes := .ok [origin], activeBranch := some masterBranch,
    repoID := "id000001" }

/-- Like `initBase` but the repository has no commits. -/
def initNoCommits : InitEnv := { initBase with commitsRes := .ok [] }

/-- Like `initBase` but the repository has no remotes. -/
def initNoRemotes : InitEnv := { initBase with remotesRes := .ok [] }

/-- Like `initBase` but the single remote has no tracking branch matching
origin/master. -/
def initMissTrack : InitEnv := { initBase with remotesRes := .ok [originNoSel] }

/-! Theorems settling the claims. -/

/-- Claim C1, counterexample.  The claim says every failing adapter operation
in Fetch, Merge or Pull triggers a Refresh before the error is returned; but
when the adapter fetch fails, `Fetch` returns the error with a trace that
contains no Refresh call at all. -/
theorem C1_counterexample :
    RepoEntity.Fetch envFetchFail baseEntity
      = Except.ok (baseEntity, some "fetch failed", [Call.fetchWithGit "origin"])
    ∧ Call.refresh ∉ [Call.fetchWithGit "origin"] :=
  ⟨rfl, by decide⟩

/-- Claim C1, amended: a failed adapter merge (in Merge or in Pull) triggers
a Refresh before the merge error is returned, but a failed adapter fetch (in
Fetch or in Pull) returns the fetch error immediately, without any
Refresh. -/
theorem C1_amended (env : Env) (e : RepoEntity) (r : Remote) (rb : RemoteBranch)
    (hr : e.Remote = some r) (hrb : r.Branch = some rb) :
    (∀ m, env.mergeErr = some m →
        (∃ e1 t, RepoEntity.Merge env e = Except.ok (e1, some m, t)
          ∧ Call.refresh ∈ t)
        ∧ (env.fetchErr = none →
            ∃ e1 t, RepoEntity.Pull env e = Except.ok (e1, some m, t)
              ∧ Call.refresh ∈ t))
    ∧ (∀ f, env.fetchErr = some f →
        RepoEntity.Fetch env e = Except.ok (e, some f, [Call.fetchWithGit r.Name])
        ∧ RepoEntity.Pull env e
            = Except.ok (e, some f, [Call.fetchWithGit r.Name])) := by
  constructor
  · intro m hm
    constructor
    · exact ⟨(RepoEntity.Refresh env e).1,
        [Call.checkout, Call.mergeWithGit rb.Name, Call.refresh],
        by simp [RepoEntity.Merge, hr, hrb, hm], by simp⟩
    · intro hf
      exact ⟨(RepoEntity.Refresh env e).1,
        [Call.fetchWithGit r.Name, Call.checkout,
         Call.mergeWithGit rb.Name, Call.refresh],
        by simp [RepoEntity.Pull, hr, hrb, hm, hf], by simp⟩
  · intro f hf
    exact ⟨by simp [RepoEntity.Fetch, hr, hf], by simp [RepoEntity.Pull, hr, hf]⟩

/-- Claim C1, witness for the amended theorem at concrete inputs. -/
theorem C1_amended_witness :
    (∃ e1 t, RepoEntity.Merge envMergeFail baseEntity
        = Except.ok (e1, some "merge failed", t) ∧ Call.refresh ∈ t)
    ∧ (∃ e1 t, RepoEntity.Pull envMergeFail baseEntity
        = Except.ok (e1, some "merge failed", t) ∧ Call.refresh ∈ t)
    ∧ RepoEntity.Fetch envFetchFail baseEntity
        = Except.ok (baseEntity, some "fetch failed", [Call.fetchWithGit "origin"]) :=
  ⟨((C1_amended envMergeFail baseEntity origin originMaster rfl rfl).1
      "merge failed" rfl).1,
   ((C1_amended envMergeFail baseEntity origin originMaster rfl rfl).1
      "merge failed" rfl).2 rfl,
   ((C1_amended envFetchFail baseEntity origin originMaster rfl rfl).2
      "fetch failed" rfl).1⟩

/-- Claim C2, counterexample.  Non-nil Remote and Branch are not sufficient:
with both set but Remote.Branch unset, Merge dereferences a nil pointer when
it reads entity.Remote.Branch.Name. -/
theorem C2_counterexample :
    entityNoRB.Remote.isSome = true ∧ entityNoRB.Branch.isSome = true
    ∧ RepoEntity.Merge okEnv entityNoRB
        = Except.error "nil pointer dereference: entity.Remote.Branch" :=
  ⟨rfl, rfl, rfl⟩

/-- Claim C2, amended: non-nil Remote, non-nil Branch and non-nil
Remote.Branch together are a sufficient precondition for Fetch, Merge and
Pull to execute without a nil-pointer dereference. -/
theorem C2_amended (env : Env) (e : RepoEntity) (r : Remote) (b : Branch)
    (rb : RemoteBranch) (hr : e.Remote = some r) (hb : e.Branch = some b)
    (hrb : r.Branch = some rb) :
    (∃ x, RepoEntity.Fetch env e = Except.ok x)
    ∧ (∃ x, RepoEntity.Merge env e = Except.ok x)
    ∧ (∃ x, RepoEntity.Pull env e = Except.ok x) := by
  refine ⟨?_, ?_, ?_⟩
  · cases hf : env.fetchErr <;> simp [RepoEntity.Fetch, hr, hf]
  · cases hm : env.mergeErr <;> simp [RepoEntity.Merge, hr, hrb, hm]
  · cases hf : env.fetchErr <;> cases hm : env.mergeErr <;>
      simp [RepoEntity.Pull, hr, hrb, hf, hm]

/-- Claim C2, witness for the amended theorem at concrete inputs. -/
theorem C2_amended_witness :
    (∃ x, RepoEntity.Fetch okEnv baseEntity = Except.ok x)
    ∧ (∃ x, RepoEntity.Merge okEnv baseEntity = Except.ok x)
    ∧ (∃ x, RepoEntity.Pull okEnv baseEntity = Except.ok x) :=
  C2_amended okEnv baseEntity origin masterBranch originMaster rfl rfl rfl

/-- Claim C6: when the remote-level fetch step of Pull fails, Pull returns
the fetch error with the entity unchanged (the returned entity is the input
itself, so every field is equal), and the trace contains no merge call. -/
theorem C6_pull_fetch_failure (env : Env) (e : RepoEntity) (r : Remote)
    (f : GitErr) (hr : e.Remote = some r) (hf : env.fetchErr = some f) :
    RepoEntity.Pull env e = Except.ok (e, some f, [Call.fetchWithGit r.Name])
    ∧ ∀ bn, Call.mergeWithGit bn ∉ [Call.fetchWithGit r.Name] := by
  refine ⟨by simp [RepoEntity.Pull, hr, hf], ?_⟩
  intro bn
  simp

/-- Claim C6, witness at concrete inputs. -/
theorem C6_witness :
    RepoEntity.Pull envFetchFail baseEntity
      = Except.ok (baseEntity, some "fetch failed", [Call.fetchWithGit "origin"])
    ∧ ∀ bn, Call.mergeWithGit bn ∉ [Call.fetchWithGit "origin"] :=
  C6_pull_fetch_failure envFetchFail baseEntity origin "fetch failed" rfl rfl

/-- Claim C3, counterexample.  With a failing adapter merge and a Refresh
that fails while loading branches, Merge returns only the original merge
error: the Refresh error is discarded, not surfaced in addition.  The first
conjunct shows the embedded Refresh does fail with "refresh failed"; the
second shows the complete result of Merge carries "merge failed" alone. -/
theorem C3_counterexample :
    (RepoEntity.Refresh envMergeRefreshFail baseEntity).2.1 = some "refresh failed"
    ∧ RepoEntity.Merge envMergeRefreshFail baseEntity
        = Except.ok ({ baseEntity with Repository := 2, ModTime := 6 },
            some "merge failed",
            [Call.checkout, Call.mergeWithGit "origin/master", Call.refresh]) :=
  ⟨rfl, rfl⟩

/-- Claim C3, amended: when the adapter merge fails, Merge and Pull return
exactly the original merge error, whatever the outcome of the subsequent
Refresh; the Refresh error is discarded. -/
theorem C3_amended (env : Env) (e : RepoEntity) (r : Remote) (rb : RemoteBranch)
    (m : GitErr) (hr : e.Remote = some r) (hrb : r.Branch = some rb)
    (hm : env.mergeErr = some m) :
    (∃ e1 t, RepoEntity.Merge env e = Except.ok (e1, some m, t))
    ∧ (env.fetchErr = none →
        ∃ e1 t, RepoEntity.Pull env e = Except.ok (e1, some m, t)) := by
  constructor
  · exact ⟨(RepoEntity.Refresh env e).1,
      [Call.checkout, Call.mergeWithGit rb.Name, Call.refresh],
      by simp [RepoEntity.Merge, hr, hrb, hm]⟩
  · intro hf
    exact ⟨(RepoEntity.Refresh env e).1,
      [Call.fetchWithGit r.Name, Call.checkout,
       Call.mergeWithGit rb.Name, Call.refresh],
      by simp [RepoEntity.Pull, hr, hrb, hm, hf]⟩

/-- Claim C3, witness for the amended theorem at concrete inputs, using the
environment in which the Refresh itself fails. -/
theorem C3_amended_witness :
    (∃ e1 t, RepoEntity.Merge envMergeRefreshFail baseEntity
        = Except.ok (e1, some "merge failed", t))
    ∧ (∃ e1 t, RepoEntity.Pull envMergeRefreshFail baseEntity
        = Except.ok (e1, some "merge failed", t)) :=
  ⟨(C3_amended envMergeRefreshFail baseEntity origin originMaster
      "merge failed" rfl rfl rfl).1,
   (C3_amended envMergeRefreshFail baseEntity origin originMaster
      "merge failed" rfl rfl rfl).2 rfl⟩

/-- Claim C5: when the remote-level fetch and the adapter merge both
succeed, Pull produces exactly the entity produced by the remote-level
FetchWithGit followed by the composite Merge, and both return nil error
(FetchWithGit does not mutate the in-memory entity, so the comparison runs
Merge on the entity FetchWithGit returns). -/
theorem C5_pull_equiv (env : Env) (e : RepoEntity) (r : Remote)
    (rb : RemoteBranch) (hr : e.Remote = some r) (hrb : r.Branch = some rb)
    (hf : env.fetchErr = none) (hm : env.mergeErr = none) :
    (FetchWithGit env e).2 = none
    ∧ ∃ e1, (∃ t, RepoEntity.Pull env e = Except.ok (e1, none, t))
        ∧ ∃ t, RepoEntity.Merge env (FetchWithGit env e).1
            = Except.ok (e1, none, t) := by
  refine ⟨by simp [FetchWithGit, hf], (RepoEntity.Refresh env e).1, ?_, ?_⟩
  · exact ⟨[Call.fetchWithGit r.Name, Call.checkout,
      Call.mergeWithGit rb.Name, Call.refresh, Call.checkout],
      by simp [RepoEntity.Pull, hr, hrb, hf, hm]⟩
  · exact ⟨[Call.checkout, Call.mergeWithGit rb.Name, Call.refresh],
      by simp [FetchWithGit, RepoEntity.Merge, hr, hrb, hm]⟩

/-- Claim C5, witness at concrete inputs. -/
theorem C5_witness :
    (FetchWithGit okEnv baseEntity).2 = none
    ∧ ∃ e1, (∃ t, RepoEntity.Pull okEnv baseEntity = Except.ok (e1, none, t))
        ∧ ∃ t, RepoEntity.Merge okEnv (FetchWithGit okEnv baseEntity).1
            = Except.ok (e1, none, t) :=
  C5_pull_equiv okEnv baseEntity origin originMaster rfl rfl rfl rfl

/-- Claim C10: Fetch, Merge and Pull discard the results of their Checkout
calls and of the success-path Refresh: whenever the adapter fetch
(respectively merge) succeeds, the operation returns nil error, for every
environment, in particular ones where checkout and the Refresh sub-steps
fail. -/
theorem C10_discarded_results (env : Env) (e : RepoEntity) (r : Remote)
    (rb : RemoteBranch) (hr : e.Remote = some r) (hrb : r.Branch = some rb) :
    (env.fetchErr = none →
        ∃ e1 t, RepoEntity.Fetch env e = Except.ok (e1, none, t))
    ∧ (env.mergeErr = none →
        ∃ e1 t, RepoEntity.Merge env e = Except.ok (e1, none, t))
    ∧ (env.fetchErr = none → env.mergeErr = none →
        ∃ e1 t, RepoEntity.Pull env e = Except.ok (e1, none, t)) := by
  refine ⟨?_, ?_, ?_⟩
  · intro hf
    exact ⟨(RepoEntity.Refresh env e).1,
      [Call.fetchWithGit r.Name, Call.refresh, Call.checkout],
      by simp [RepoEntity.Fetch, hr, hf]⟩
  · intro hm
    exact ⟨(RepoEntity.Refresh env e).1,
      [Call.checkout, Call.mergeWithGit rb.Name, Call.refresh],
      by simp [RepoEntity.Merge, hr, hrb, hm]⟩
  · intro hf hm
    exact ⟨(RepoEntity.Refresh env e).1,
      [Call.fetchWithGit r.Name, Call.checkout,
       Call.mergeWithGit rb.Name, Call.refresh, Call.checkout],
      by simp [RepoEntity.Pull, hr, hrb, hf, hm]⟩

/-- Claim C10, witness at concrete inputs: in an environment where checkout
fails and the Refresh fails while loading branches, all three operations
still return nil error. -/
theorem C10_witness :
    (∃ e1 t, RepoEntity.Fetch envDiscardFail baseEntity = Except.ok (e1, none, t))
    ∧ (∃ e1 t, RepoEntity.Merge envDiscardFail baseEntity = Except.ok (e1, none, t))
    ∧ (∃ e1 t, RepoEntity.Pull envDiscardFail baseEntity = Except.ok (e1, none, t)) :=
  ⟨(C10_discarded_results envDiscardFail baseEntity origin originMaster rfl rfl).1 rfl,
   (C10_discarded_results envDiscardFail baseEntity origin originMaster rfl rfl).2.1 rfl,
   (C10_discarded_results envDiscardFail baseEntity origin originMaster rfl rfl).2.2 rfl rfl⟩

/-- Claim C7, counterexample.  The claim orders the sub-steps of Refresh as:
re-open the handle, then stat, then the three loads.  The code stats first:
with both the stat and the re-open failing (with distinct errors), Refresh
returns the stat error having attempted only the stat, while the
claim-ordered variant returns the re-open error. -/
theorem C7_counterexample :
    RepoEntity.Refresh envStatOpenFail baseEntity
      = (baseEntity, some "stat failed", [RStep.stat])
    ∧ RefreshClaimOrder envStatOpenFail baseEntity
      = (baseEntity, some "open failed", [RStep.plainOpen])
    ∧ ("stat failed" : GitErr) ≠ "open failed" :=
  ⟨rfl, rfl, by decide⟩

/-- Claim C7, amended: Refresh stats the directory first, then re-opens the
repository handle (assigning the new handle and modification time together
once both succeed), then reloads branches, commits and remotes in exactly
that order; the first failing sub-step's error is returned and every value
loaded by earlier completed sub-steps remains in place (no rollback). -/
theorem C7_amended (env : Env) (e : RepoEntity) :
    (∀ s, env.statRes = .error s →
        RepoEntity.Refresh env e = (e, some s, [RStep.stat]))
    ∧ (∀ mt o, env.statRes = .ok mt → env.plainOpenRes = .error o →
        RepoEntity.Refresh env e = (e, some o, [RStep.stat, RStep.plainOpen]))
    ∧ (∀ mt r berr, env.statRes = .ok mt → env.plainOpenRes = .ok r →
        env.branchesRes = .error berr →
        RepoEntity.Refresh env e
          = ({ e with Repository := r, ModTime := mt }, some berr,
             [RStep.stat, RStep.plainOpen, RStep.loadBranches]))
    ∧ (∀ mt r bs cerr, env.statRes = .ok mt → env.plainOpenRes = .ok r →
        env.branchesRes = .ok bs → env.commitsRes = .error cerr →
        RepoEntity.Refresh env e
          = ({ e with Repository := r, ModTime := mt, Branches := bs },
             some cerr,
             [RStep.stat, RStep.plainOpen, RStep.loadBranches, RStep.loadCommits]))
    ∧ (∀ mt r bs cs rerr, env.statRes = .ok mt → env.plainOpenRes = .ok r →
        env.branchesRes = .ok bs → env.commitsRes = .ok cs →
        env.remotesRes = .error rerr →
        RepoEntity.Refresh env e
          = ({ e with Repository := r, ModTime := mt, Branches := bs, Commits := cs },
             some rerr,
             [RStep.stat, RStep.plainOpen, RStep.loadBranches,
              RStep.loadCommits, RStep.loadRemotes]))
    ∧ (∀ mt r bs cs rs, env.statRes = .ok mt → env.plainOpenRes = .ok r →
        env.branchesRes = .ok bs → env.commitsRes = .ok cs →
        env.remotesRes = .ok rs →
        RepoEntity.Refresh env e
          = ({ e with Repository := r, ModTime := mt, Branches := bs, Commits := cs, Remotes := rs },
             none,
             [RStep.stat, RStep.plainOpen, RStep.loadBranches,
              RStep.loadCommits, RStep.loadRemotes])) := by
  refine ⟨?_, ?_, ?_, ?_, ?_, ?_⟩
  · intro s hs
    simp [RepoEntity.Refresh, hs]
  · intro mt o hs ho
    simp [RepoEntity.Refresh, hs, ho]
  · intro mt r berr hs ho hb
    simp [RepoEntity.Refresh, loadLocalBranches, hs, ho, hb]
  · intro mt r bs cerr hs ho hb hc
    simp [RepoEntity.Refresh, loadLocalBranches, loadCommits, hs, ho, hb, hc]
  · intro mt r bs cs rerr hs ho hb hc hrm
    simp [RepoEntity.Refresh, loadLocalBranches, loadCommits, loadRemotes,
      hs, ho, hb, hc, hrm]
  · intro mt r bs cs rs hs ho hb hc hrm
    simp [RepoEntity.Refresh, loadLocalBranches, loadCommits, loadRemotes,
      hs, ho, hb, hc, hrm]

/-- Claim C7, witness for the amended theorem: a failing-branch-load run at
concrete inputs keeps the freshly assigned handle and modification time and
stops before loading commits and remotes. -/
theorem C7_witness :
    RepoEntity.Refresh envMergeRefreshFail baseEntity
      = ({ baseEntity with Repository := 2, ModTime := 6 },
         some "refresh failed",
         [RStep.stat, RStep.plainOpen, RStep.loadBranches]) :=
  (C7_amended envMergeRefreshFail baseEntity).2.2.1 6 2 "refresh failed" rfl rfl rfl

/-- Helper: Refresh never writes State nor the identity fields. -/
theorem Refresh_identity_frame (env : Env) (e : RepoEntity) :
    (RepoEntity.Refresh env e).1.State = e.State
    ∧ (RepoEntity.Refresh env e).1.RepoID = e.RepoID
    ∧ (RepoEntity.Refresh env e).1.Name = e.Name
    ∧ (RepoEntity.Refresh env e).1.AbsPath = e.AbsPath := by
  unfold RepoEntity.Refresh
  cases env.statRes <;> cases env.plainOpenRes <;>
    cases env.branchesRes <;> cases env.commitsRes <;> cases env.remotesRes <;>
      simp [loadLocalBranches, loadCommits, loadRemotes]

/-- Helper: a non-panicking Fetch, Merge or Pull returns either the input
entity or the entity produced by Refresh on it. -/
theorem op_ok_entity (env : Env) (e e1 : RepoEntity) (res : Option GitErr)
    (t : List Call)
    (h : RepoEntity.Fetch env e = Except.ok (e1, res, t)
      ∨ RepoEntity.Merge env e = Except.ok (e1, res, t)
      ∨ RepoEntity.Pull env e = Except.ok (e1, res, t)) :
    e1 = e ∨ e1 = (RepoEntity.Refresh env e).1 := by
  rcases h with h | h | h
  · cases hr : e.Remote with
    | none => simp [RepoEntity.Fetch, hr] at h
    | some r =>
      cases hf : env.fetchErr with
      | some f =>
        simp [RepoEntity.Fetch, hr, hf] at h
        exact Or.inl h.1.symm
      | none =>
        simp [RepoEntity.Fetch, hr, hf] at h
        exact Or.inr h.1.symm
  · cases hr : e.Remote with
    | none => simp [RepoEntity.Merge, hr] at h
    | some r =>
      cases hrb : r.Branch with
      | none => simp [RepoEntity.Merge, hr, hrb] at h
      | some rb =>
        cases hm : env.mergeErr with
        | some m =>
          simp [RepoEntity.Merge, hr, hrb, hm] at h
          exact Or.inr h.1.symm
        | none =>
          simp [RepoEntity.Merge, hr, hrb, hm] at h
          exact Or.inr h.1.symm
  · cases hr : e.Remote with
    | none => simp [RepoEntity.Pull, hr] at h
    | some r =>
      cases hf : env.fetchErr with
      | some f =>
        simp [RepoEntity.Pull, hr, hf] at h
        exact Or.inl h.1.symm
      | none =>
        cases hrb : r.Branch with
        | none => simp [RepoEntity.Pull, hr, hf, hrb] at h
        | some rb =>
          cases hm : env.mergeErr with
          | some m =>
            simp [RepoEntity.Pull, hr, hf, hrb, hm] at h
            exact Or.inr h.1.symm
          | none =>
            simp [RepoEntity.Pull, hr, hf, hrb, hm] at h
            exact Or.inr h.1.symm

/-- Helper: every entity returned by InitializeRepository has State
Available. -/
theorem InitializeRepository_state (env : InitEnv) (directory : String)
    (e1 : RepoEntity) (res : Option GitErr)
    (h : InitializeRepository env directory = Except.ok (some e1, res)) :
    e1.State = RepoState.Available := by
  unfold InitializeRepository at h
  cases ho : env.openErr with
  | some err => simp [ho] at h
  | none =>
    simp only [ho] at h
    cases hs : env.statRes with
    | error err => simp [hs] at h
    | ok nmmt =>
      simp only [hs] at h
      cases hp : env.plainOpenRes with
      | error err => simp [hp] at h
      | ok r =>
        simp only [hp] at h
        cases hb : env.branchesRes <;> simp only [hb, loadLocalBranches] at h <;>
        · cases hc : env.commitsRes with
          | error ce =>
            simp only [hc, loadCommits] at h
            simp at h
            obtain ⟨h1, h2⟩ := h
            subst h1
            rfl
          | ok cs =>
            simp only [hc, loadCommits] at h
            cases cs with
            | nil =>
              simp at h
              obtain ⟨h1, h2⟩ := h
              subst h1
              rfl
            | cons c cs2 =>
              cases hr : env.remotesRes with
              | error re =>
                simp only [hr, loadRemotes] at h
                simp at h
                obtain ⟨h1, h2⟩ := h
                subst h1
                rfl
              | ok rs =>
                simp only [hr, loadRemotes] at h
                cases rs with
                | nil =>
                  simp at h
                  obtain ⟨h1, h2⟩ := h
                  subst h1
                  rfl
                | cons r0 rest =>
                  cases hab : env.activeBranch with
                  | none => simp [hab] at h
                  | some b =>
                    simp only [hab] at h
                    simp at h
                    obtain ⟨h1, h2⟩ := h
                    subst h1
                    rfl

/-- Claim C8: Fetch, Merge, Pull and Refresh never write State nor the
identity fields RepoID, Name and AbsPath, and InitializeRepository sets
State to Available on every entity it returns. -/
theorem C8_state_frame (env : Env) (ienv : InitEnv) (e : RepoEntity)
    (directory : String) :
    ((RepoEntity.Refresh env e).1.State = e.State
      ∧ (RepoEntity.Refresh env e).1.RepoID = e.RepoID
      ∧ (RepoEntity.Refresh env e).1.Name = e.Name
      ∧ (RepoEntity.Refresh env e).1.AbsPath = e.AbsPath)
    ∧ (∀ e1 res t,
        (RepoEntity.Fetch env e = Except.ok (e1, res, t)
          ∨ RepoEntity.Merge env e = Except.ok (e1, res, t)
          ∨ RepoEntity.Pull env e = Except.ok (e1, res, t)) →
        e1.State = e.State ∧ e1.RepoID = e.RepoID ∧ e1.Name = e.Name
          ∧ e1.AbsPath = e.AbsPath)
    ∧ (∀ e1 res, InitializeRepository ienv directory = Except.ok (some e1, res) →
        e1.State = RepoState.Available) := by
  refine ⟨Refresh_identity_frame env e, ?_, ?_⟩
  · intro e1 res t h
    rcases op_ok_entity env e e1 res t h with h1 | h1
    · subst h1
      exact ⟨rfl, rfl, rfl, rfl⟩
    · subst h1
      exact Refresh_identity_frame env e
  · intro e1 res h
    exact InitializeRepository_state ienv directory e1 res h

/-- Claim C8, witness at concrete inputs: a successful Fetch preserves the
State and identity fields, and the entity built by InitializeRepository has
State Available. -/
theorem C8_witness :
    (refreshedBase.State = baseEntity.State
      ∧ refreshedBase.RepoID = baseEntity.RepoID
      ∧ refreshedBase.Name = baseEntity.Name
      ∧ refreshedBase.AbsPath = baseEntity.AbsPath)
    ∧ baseEntity.State = RepoState.Available := by
  have h := C8_state_frame okEnv initBase baseEntity "/tmp/repo"
  exact ⟨h.2.1 refreshedBase none
      [Call.fetchWithGit "origin", Call.refresh, Call.checkout] (Or.inl rfl),
    h.2.2 baseEntity none rfl⟩

/-- Claim C4: on a valid repository (directory opens, stats and opens as a
git repository), InitializeRepository returns a non-nil entity even on
partial failure: with zero commits it returns the entity together with the
EmptyRepository-kind error, Commits empty and Commit unset; with commits but
zero remotes it returns the entity together with the NoRemote-kind error,
Branch set (to the active branch reported by the adapter) and Remote
unset. -/
theorem C4_partial_success (env : InitEnv) (directory nm : String)
    (mt hnd : Nat) (hopen : env.openErr = none)
    (hstat : env.statRes = .ok (nm, mt)) (hpo : env.plainOpenRes = .ok hnd) :
    (env.commitsRes = .ok [] →
        ∃ e, InitializeRepository env directory
            = Except.ok (some e,
                some ("There is no commit for this repository: " ++ directory))
          ∧ e.Commits = [] ∧ e.Commit = none)
    ∧ (∀ c cs b, env.commitsRes = .ok (c :: cs) → env.remotesRes = .ok [] →
        env.activeBranch = some b →
        ∃ e, InitializeRepository env directory
            = Except.ok (some e,
                some ("There is no remote for this repository: " ++ directory))
          ∧ e.Branch = some b ∧ e.Remote = none) := by
  constructor
  · intro hc
    cases hb : env.branchesRes with
    | error be =>
      refine ⟨{ RepoID := env.repoID
                Name := nm
                AbsPath := directory
                ModTime := mt
                Repository := hnd
                Branch := none
                Branches := []
                Remote := none
                Remotes := []
                Commit := none
                Commits := []
                State := RepoState.Available }, ?_, rfl, rfl⟩
      simp [InitializeRepository, hopen, hstat, hpo, hb, hc,
        loadLocalBranches, loadCommits]
    | ok bs =>
      refine ⟨{ RepoID := env.repoID
                Name := nm
                AbsPath := directory
                ModTime := mt
                Repository := hnd
                Branch := none
                Branches := bs
                Remote := none
                Remotes := []
                Commit := none
                Commits := []
                State := RepoState.Available }, ?_, rfl, rfl⟩
      simp [InitializeRepository, hopen, hstat, hpo, hb, hc,
        loadLocalBranches, loadCommits]
  · intro c cs b hc hrm hab
    cases hb : env.branchesRes with
    | error be =>
      refine ⟨{ RepoID := env.repoID
                Name := nm
                AbsPath := directory
                ModTime := mt
                Repository := hnd
                Branch := some b
                Branches := []
                Remote := none
                Remotes := []
                Commit := some c
                Commits := c :: cs
                State := RepoState.Available }, ?_, rfl, rfl⟩
      simp [InitializeRepository, hopen, hstat, hpo, hb, hc, hrm, hab,
        loadLocalBranches, loadCommits, loadRemotes]
    | ok bs =>
      refine ⟨{ RepoID := env.repoID
                Name := nm
                AbsPath := directory
                ModTime := mt
                Repository := hnd
                Branch := some b
                Branches := bs
                Remote := none
                Remotes := []
                Commit := some c
                Commits := c :: cs
                State := RepoState.Available }, ?_, rfl, rfl⟩
      simp [InitializeRepository, hopen, hstat, hpo, hb, hc, hrm, hab,
        loadLocalBranches, loadCommits, loadRemotes]

/-- Claim C4, witness at concrete inputs: the zero-commit case and the
zero-remote case. -/
theorem C4_witness :
    (∃ e, InitializeRepository initNoCommits "/tmp/repo"
        = Except.ok (some e,
            some ("There is no commit for this repository: " ++ "/tmp/repo"))
      ∧ e.Commits = [] ∧ e.Commit = none)
    ∧ (∃ e, InitializeRepository initNoRemotes "/tmp/repo"
        = Except.ok (some e,
            some ("There is no remote for this repository: " ++ "/tmp/repo"))
      ∧ e.Branch = some masterBranch ∧ e.Remote = none) :=
  ⟨(C4_partial_success initNoCommits "/tmp/repo" "repo" 5 1 rfl rfl rfl).1 rfl,
   (C4_partial_success initNoRemotes "/tmp/repo" "repo" 5 1 rfl rfl rfl).2
      sampleCommit [] masterBranch rfl rfl rfl⟩

/-- Claim C9: with at least one remote, when the remote-tracking branch
named remoteName/activeBranchName does not exist on the selected remote,
InitializeRepository returns no error from the selection attempt (the
overall error is nil), the first remote remains selected and its Branch
selection is exactly what it was before the attempt, since the returned
Remote is the unchanged first remote value. -/
theorem C9_missing_tracking_branch (env : InitEnv) (directory nm : String)
    (mt hnd : Nat) (c : Commit) (cs : List Commit) (r0 : Remote)
    (rs : List Remote) (b : Branch) (hopen : env.openErr = none)
    (hstat : env.statRes = .ok (nm, mt)) (hpo : env.plainOpenRes = .ok hnd)
    (hc : env.commitsRes = .ok (c :: cs))
    (hrm : env.remotesRes = .ok (r0 :: rs)) (hab : env.activeBranch = some b)
    (hmiss : r0.Branches.find? (fun rb => rb.Name == r0.Name ++ "/" ++ b.Name)
      = none) :
    ∃ e, InitializeRepository env directory = Except.ok (some e, none)
      ∧ e.Remote = some r0 := by
  cases hb : env.branchesRes with
  | error be =>
    refine ⟨{ RepoID := env.repoID
              Name := nm
              AbsPath := directory
              ModTime := mt
              Repository := hnd
              Branch := some b
              Branches := []
              Remote := some r0
              Remotes := r0 :: rs
              Commit := some c
              Commits := c :: cs
              State := RepoState.Available }, ?_, rfl⟩
    simp [InitializeRepository, Remote.switchRemoteBranch, hopen, hstat, hpo,
      hb, hc, hrm, hab, hmiss, loadLocalBranches, loadCommits, loadRemotes]
  | ok bs =>
    refine ⟨{ RepoID := env.repoID
              Name := nm
              AbsPath := directory
              ModTime := mt
              Repository := hnd
              Branch := some b
              Branches := bs
              Remote := some r0
              Remotes := r0 :: rs
              Commit := some c
              Commits := c :: cs
              State := RepoState.Available }, ?_, rfl⟩
    simp [InitializeRepository, Remote.switchRemoteBranch, hopen, hstat, hpo,
      hb, hc, hrm, hab, hmiss, loadLocalBranches, loadCommits, loadRemotes]

/-- Claim C9, witness at concrete inputs: the single remote has no tracking
branches at all, so origin/master is not found; the remote stays selected
with its Branch selection still unset. -/
theorem C9_witness :
    ∃ e, InitializeRepository initMissTrack "/tmp/repo"
        = Except.ok (some e, none)
      ∧ e.Remote = some originNoSel :=
  C9_missing_tracking_branch initMissTrack "/tmp/repo" "repo" 5 1 sampleCommit
    [] originNoSel [] masterBranch rfl rfl rfl rfl rfl rfl rfl

end Gitbatch
